import Mathlib

/-!
# Verification of the pracuj.pl job-scraper dedup-and-notify core

Shallow embedding of `src/main.py`. Python strings are Lean `String`s;
Python `str.lower()` / `str.upper()` are modelled on the ASCII fragment by
`Char.toLower` / `Char.toUpper` mapped over the characters; Python dicts that
serve as JSON records become structures with `Option` fields (a missing key
is `none`, and `d['k']` is an `Option.bind`); the Redis client is
`Option Store` (`none` = no client); exceptions become explicit `Option`
results, mirroring exactly the `try`/`except` boundaries of the source.
-/

namespace PracujScraper

/-- Python `str.lower()` (ASCII fragment): lowercase every character. -/
def lowerStr (s : String) : String := ⟨s.data.map Char.toLower⟩

/-- Python `str.upper()` (ASCII fragment): uppercase every character. -/
def upperStr (s : String) : String := ⟨s.data.map Char.toUpper⟩

/-- Python truthiness of an optional string: `None` and `""` are falsy.
The source tests `if self.city:` and `if search.city`. -/
def pyTruthy : Option String → Bool
  | none => false
  | some s => !(s == "")

/-- `JobSearch` dataclass (src/main.py lines 34-37): position plus optional city.
The dataclass performs no validation of any kind. -/
structure JobSearch where
  position : String
  city : Option String
deriving DecidableEq

/-- `JobSearch.get_search_id` (lines 49-53): `f"{position}:{city}".lower()` when
the city is truthy, else `position.lower()`. -/
def JobSearch.get_search_id (s : JobSearch) : String :=
  if pyTruthy s.city then lowerStr (s.position ++ ":" ++ s.city.getD "")
  else lowerStr s.position

/-- The dedup key built at line 182: `f"{search.get_search_id()}:{offer['groupId']}"`. -/
def offerId (search : JobSearch) (groupId : String) : String :=
  search.get_search_id ++ ":" ++ groupId

/-- One element of the per-offer nested `offers` list; the source reads
`offer['offers'][0]['displayWorkplace']` and `offer['offers'][0]['offerAbsoluteUri']`. -/
structure SubOffer where
  displayWorkplace : Option String
  offerAbsoluteUri : Option String
deriving DecidableEq

/-- A raw offer record as returned by the offer source (a JSON dict).
Every field may be missing; a missing field makes the corresponding
`offer['...']` lookup raise `KeyError`. -/
structure RawOffer where
  groupId : Option String
  companyName : Option String
  jobTitle : Option String
  lastPublicated : Option String
  technologies : Option (List String)
  positionLevels : Option (List String)
  salaryDisplayText : Option String
  offers : Option (List SubOffer)
deriving DecidableEq

/-- The `offer_data` snapshot dict built at lines 185-194: every value is a
string (`technologies` and `positionLevels` are comma-joined). -/
structure OfferData where
  companyName : String
  jobTitle : String
  lastPublicated : String
  technologies : String
  displayWorkplace : String
  offerAbsoluteUri : String
  positionLevels : String
  salaryDisplayText : String
deriving DecidableEq

/-- Build the `offer_data` snapshot (lines 185-194). `none` models a raised
exception while building it (missing key, or empty nested `offers` list),
which the per-offer `except` at line 204 catches. `salaryDisplayText` uses
`offer.get('salaryDisplayText', '')`, so a missing salary is stored as `""`. -/
def buildOfferData (offer : RawOffer) : Option OfferData := do
  let companyName ← offer.companyName
  let jobTitle ← offer.jobTitle
  let lastPublicated ← offer.lastPublicated
  let technologies ← offer.technologies
  let sub ← offer.offers
  let first ← sub.head?
  let displayWorkplace ← first.displayWorkplace
  let offerAbsoluteUri ← first.offerAbsoluteUri
  let positionLevels ← offer.positionLevels
  some { companyName := companyName, jobTitle := jobTitle,
         lastPublicated := lastPublicated,
         technologies := String.intercalate "," technologies,
         displayWorkplace := displayWorkplace,
         offerAbsoluteUri := offerAbsoluteUri,
         positionLevels := String.intercalate "," positionLevels,
         salaryDisplayText := offer.salaryDisplayText.getD "" }

/-- The dict handed to `send_telegram_alert` at lines 199-203:
`{**offer_data, 'technologies': offer['technologies'],
'positionLevels': offer['positionLevels']}` — the snapshot with the two
comma-joined fields overridden by the raw lists. `salaryDisplayText` is
`Option`-valued because `send_telegram_alert` reads it with
`job.get('salaryDisplayText', 'Not specified')`. -/
structure JobDict where
  companyName : String
  jobTitle : String
  lastPublicated : String
  technologies : List String
  displayWorkplace : String
  offerAbsoluteUri : String
  positionLevels : List String
  salaryDisplayText : Option String
deriving DecidableEq

/-- The merged dict of lines 199-203. When `buildOfferData` succeeded the raw
`technologies` / `positionLevels` are present, so `getD []` never fires; the
merge keeps the snapshot's `salaryDisplayText` (always a present string). -/
def mergedJob (offer : RawOffer) (d : OfferData) : JobDict :=
  { companyName := d.companyName, jobTitle := d.jobTitle,
    lastPublicated := d.lastPublicated,
    technologies := offer.technologies.getD [],
    displayWorkplace := d.displayWorkplace,
    offerAbsoluteUri := d.offerAbsoluteUri,
    positionLevels := offer.positionLevels.getD [],
    salaryDisplayText := some d.salaryDisplayText }

/-- The salary text rendered into the message at line 143:
`job.get('salaryDisplayText', 'Not specified')`. -/
def salaryShown (job : JobDict) : String :=
  job.salaryDisplayText.getD "Not specified"

/-- The message template of `send_telegram_alert` (lines 135-146), grouped
into the part before the salary line, the salary line, and the part after. -/
def alertMessage (job : JobDict) (search : JobSearch) : String :=
  ("🚨 New job offer: " ++ job.jobTitle ++ "!\n\n" ++
   "🔍 Search: " ++ search.position ++
   (if pyTruthy search.city then " in " ++ search.city.getD "" else "") ++ "\n\n" ++
   "🏢 Company: " ++ job.companyName ++ "\n" ++
   "📍 Location: " ++ job.displayWorkplace ++ "\n" ++
   "💼 Level: " ++ String.intercalate ", " job.positionLevels ++ "\n" ++
   "🔧 Technologies: " ++ String.intercalate ", " job.technologies ++ "\n") ++
  ("💰 Salary: " ++ salaryShown job ++ "\n") ++
  ("🔗 Link: " ++ job.offerAbsoluteUri ++ "\n\n" ++
   "📅 Published: " ++ job.lastPublicated)

/-- The Redis contents relevant to offers: a map from key to stored hash. -/
abbrev Store := List (String × OfferData)

/-- `redis_client.exists(k)`. -/
def hasKey (st : Store) (k : String) : Bool := st.any (fun p => p.1 == k)

/-- `redis_client.hmset(k, d)`: upsert of the snapshot under the key. -/
def setKey : Store → String → OfferData → Store
  | [], k, d => [(k, d)]
  | (k', d') :: rest, k, d =>
    if k' == k then (k, d) :: rest else (k', d') :: setKey rest k d

/-- The dedup check at line 184, read positively: the offer is already seen
iff a client exists and the key exists. With no client (`none`) this is
always `false` — the spec's `hasOffer` degraded mode. -/
def hasOffer (rc : Option Store) (key : String) : Bool :=
  match rc with
  | none => false
  | some st => hasKey st key

/-- Observable events of one processing run: a `recordOffer` store write, or
a notifier invocation (with the delivery outcome reported by the channel). -/
inductive Event where
  | write (key : String) (d : OfferData)
  | notify (message : String) (delivered : Bool)
deriving DecidableEq

/-- Result of `process_offers` (and of a cycle): final store, event trace,
and the exception, if one escaped (only a missing `groupId` can: line 182
sits outside the per-offer `try`). -/
structure ProcRes where
  store : Option Store
  trace : List Event
  err : Option String
deriving DecidableEq

/-- `JobMonitor.process_offers` (lines 179-205). Per offer: the dedup key is
built (a missing `groupId` raises out of the whole loop); inside the `try`,
if the offer is not seen the snapshot is built (a failure there is caught
per offer and skips it), then — with a client — the key is written, then the
alert is sent. `send_telegram_alert` swallows delivery failures internally
(lines 154-155), so `deliver` only shows up in the notify event's flag. -/
def process_offers (deliver : String → Bool) (rc : Option Store)
    (search : JobSearch) : List RawOffer → ProcRes
  | [] => ⟨rc, [], none⟩
  | offer :: rest =>
    match offer.groupId with
    | none => ⟨rc, [], some "KeyError: groupId"⟩
    | some groupId =>
      let key := "offer:" ++ offerId search groupId
      let step : Option Store × List Event :=
        if hasOffer rc key then (rc, [])
        else
          match buildOfferData offer with
          | none => (rc, [])
          | some d =>
            let msg := alertMessage (mergedJob offer d) search
            match rc with
            | some st =>
              (some (setKey st key d), [.write key d, .notify msg (deliver msg)])
            | none => (none, [.notify msg (deliver msg)])
      let r := process_offers deliver step.1 search rest
      ⟨r.store, step.2 ++ r.trace, r.err⟩

/-- `JobMonitor.get_job_offers` (lines 157-177), with the HTTP fetch and
HTML/JSON parse as an oracle: any failure (network error, missing
`__NEXT_DATA__`, malformed payload) is caught and yields `[]`. -/
def getJobOffers (fetchResult : Except String (List RawOffer)) : List RawOffer :=
  match fetchResult with
  | .ok offers => offers
  | .error _ => []

/-- One cycle of `JobMonitor.run`'s inner loop (lines 213-219): for each
search in snapshot order, fetch (failures become `[]`), and process when the
list is non-empty. An exception escaping `process_offers` is caught by the
outer handler at line 226, which abandons the rest of the cycle. -/
def runCycle (deliver : String → Bool)
    (fetch : JobSearch → Except String (List RawOffer))
    (rc : Option Store) : List JobSearch → ProcRes
  | [] => ⟨rc, [], none⟩
  | search :: rest =>
    let offers := getJobOffers (fetch search)
    if offers.isEmpty then runCycle deliver fetch rc rest
    else
      let r := process_offers deliver rc search offers
      match r.err with
      | some e => ⟨r.store, r.trace, some e⟩
      | none =>
        let r2 := runCycle deliver fetch r.store rest
        ⟨r2.store, r.trace ++ r2.trace, r2.err⟩

/-- Python `str.split(":")` on the character list: splits at EVERY colon,
keeping empty segments; never returns an empty list. -/
def splitColon : List Char → List (List Char)
  | [] => [[]]
  | c :: rest =>
    if c = ':' then [] :: splitColon rest
    else
      match splitColon rest with
      | [] => [[c]]
      | s :: ss => (c :: s) :: ss

/-- Python `search_str.split(":")`. -/
def pySplitColon (s : String) : List String := (splitColon s.data).map String.mk

/-- The reconstruction of lines 99-100:
`position, *city = search_str.split(":")` and then `city[0] if city else None`.
The position is the first segment; the city is the SECOND segment when one
exists (`city[0]` of the remaining segments), not the whole remainder. -/
def setupEntry (searchStr : String) : String × Option String :=
  match pySplitColon searchStr with
  | [] => (searchStr, none)
  | position :: city => (position, city.head?)

/-- The in-memory `self.searches` dict: insertion-ordered, keyed by search id. -/
abbrev Registry := List (String × JobSearch)

/-- Python `self.searches[k]` lookup. -/
def dictGet (m : Registry) (k : String) : Option JobSearch :=
  (m.find? (fun p => p.1 == k)).map (fun p => p.2)

/-- Python `self.searches[k] = v`: replace in place when the key exists
(dicts keep the original position), else append. -/
def dictInsert (m : Registry) (k : String) (v : JobSearch) : Registry :=
  if m.any (fun p => p.1 == k) then
    m.map (fun p => if p.1 == k then (k, v) else p)
  else m ++ [(k, v)]

/-- The persisted `job_searches` Redis set, as an ordered duplicate-free list. -/
abbrev SearchSet := List String

/-- `redis_client.sadd("job_searches", k)`. -/
def saddId (ss : SearchSet) (k : String) : SearchSet :=
  if ss.contains k then ss else ss ++ [k]

/-- The registry-relevant state of a `JobMonitor`: the in-memory dict plus
the optional Redis-backed identifier set. -/
structure MonitorReg where
  searches : Registry
  redisSet : Option SearchSet
deriving DecidableEq

/-- `JobMonitor.add_search` (lines 112-120): build the `JobSearch` (no
validation exists anywhere), insert under its id, persist the id when a
client exists. -/
def add_search (m : MonitorReg) (position : String) (city : Option String) :
    MonitorReg :=
  let search : JobSearch := ⟨position, city⟩
  let sid := search.get_search_id
  { searches := dictInsert m.searches sid search,
    redisSet := m.redisSet.map (fun ss => saddId ss sid) }

/-- The saved-searches branch of `JobMonitor.setup` (lines 97-100): for each
persisted identifier, reconstruct and `add_search`. -/
def setupFromSaved (saved : List String) (m : MonitorReg) : MonitorReg :=
  saved.foldl (fun acc s => add_search acc (setupEntry s).1 (setupEntry s).2) m

/-- Does an event record a store write? -/
def isWrite : Event → Bool
  | .write _ _ => true
  | .notify _ _ => false

/-- Substring test: does `s` contain `pat`? -/
def strContainsB (s pat : String) : Bool :=
  s.data.tails.any (fun t => pat.data.isPrefixOf t)

/-- A complete raw offer used as concrete test vector. Its salary field is
absent (the scenario of the salary-default question). -/
def sampleOffer : RawOffer :=
  { groupId := some "42", companyName := some "Acme", jobTitle := some "Dev",
    lastPublicated := some "2024-01-01",
    technologies := some ["K8s", "AWS"],
    positionLevels := some ["Senior"],
    salaryDisplayText := none,
    offers := some [{ displayWorkplace := some "Wroclaw",
                      offerAbsoluteUri := some "http" }] }

/-- A concrete search, matching the spec's scenario. -/
def sampleSearch : JobSearch := ⟨"DevOps Engineer", some "Wroclaw"⟩

/-- The snapshot `process_offers` builds for `sampleOffer`; note the missing
salary is stored as `""`. -/
def sampleData : OfferData :=
  { companyName := "Acme", jobTitle := "Dev", lastPublicated := "2024-01-01",
    technologies := "K8s,AWS", displayWorkplace := "Wroclaw",
    offerAbsoluteUri := "http", positionLevels := "Senior",
    salaryDisplayText := "" }

/-- `sampleOffer` with the required `companyName` field missing, so that
building its snapshot raises `KeyError` inside the per-offer `try`. -/
def brokenOffer : RawOffer := { sampleOffer with companyName := none }

end PracujScraper

namespace PracujScraper

lemma char_toNat_ofNat_valid (n : Nat) (h : n.isValidChar) :
    (Char.ofNat n).toNat = n := by
  rw [Char.ofNat, dif_pos h]
  rfl

lemma char_toLower_toUpper (c : Char) :
    (Char.toUpper c).toLower = Char.toLower c := by
  simp only [Char.toUpper, Char.toLower]
  by_cases h : c.toNat ≥ 97 ∧ c.toNat ≤ 122
  · rw [if_pos h]
    have hv : (c.toNat - 32).isValidChar := Or.inl (by omega)
    have ht : (Char.ofNat (c.toNat - 32)).toNat = c.toNat - 32 :=
      char_toNat_ofNat_valid _ hv
    rw [ht, if_pos (by omega), if_neg (by omega)]
    have h32 : c.toNat - 32 + 32 = c.toNat := by omega
    rw [h32, Char.ofNat_toNat]
  · rw [if_neg h]

lemma lowerStr_upperStr (s : String) : lowerStr (upperStr s) = lowerStr s := by
  simp [lowerStr, upperStr, List.map_map, Function.comp_def, char_toLower_toUpper]

lemma lowerStr_append (s t : String) :
    lowerStr (s ++ t) = lowerStr s ++ lowerStr t := by
  apply String.ext
  simp [lowerStr]

lemma lowerStr_colon : lowerStr ":" = ":" := by decide

lemma upperStr_eq_empty_iff (s : String) : upperStr s = "" ↔ s = "" := by
  constructor
  · intro h
    have hd : (upperStr s).data = ([] : List Char) := by rw [h]
    simp only [upperStr, List.map_eq_nil_iff] at hd
    exact String.ext hd
  · intro h; subst h; rfl

/-- Recording a key makes `exists` on that key true. -/
lemma hasKey_setKey (st : Store) (k : String) (d : OfferData) :
    hasKey (setKey st k d) k = true := by
  induction st with
  | nil => simp [setKey, hasKey]
  | cons x xs ih =>
    obtain ⟨k', d'⟩ := x
    by_cases h : k' == k
    · simp [setKey, h, hasKey]
    · simp only [setKey, h, if_false, Bool.false_eq_true]
      simp only [hasKey, List.any_cons] at ih ⊢
      simp [ih]

/-- With no Redis client, processing never creates a client and never
performs a store write, whatever the offer list. -/
lemma process_offers_none (deliver : String → Bool) (search : JobSearch) :
    ∀ offers : List RawOffer,
      (process_offers deliver none search offers).store = none ∧
      (process_offers deliver none search offers).trace.all
        (fun e => !(isWrite e)) = true := by
  intro offers
  induction offers with
  | nil => simp [process_offers]
  | cons o os ih =>
    cases hg : o.groupId with
    | none => simp [process_offers, hg]
    | some g =>
      cases hd : buildOfferData o with
      | none => simpa [process_offers, hg, hasOffer, hd] using ih
      | some d => simpa [process_offers, hg, hasOffer, hd, isWrite] using ih

/-- The store evolution and the escaping exception of `process_offers` do not
depend on delivery outcomes: `send_telegram_alert` swallows its failures. -/
lemma process_offers_deliver_indep (d₁ d₂ : String → Bool)
    (search : JobSearch) :
    ∀ (offers : List RawOffer) (rc : Option Store),
      (process_offers d₁ rc search offers).store =
        (process_offers d₂ rc search offers).store ∧
      (process_offers d₁ rc search offers).err =
        (process_offers d₂ rc search offers).err := by
  intro offers
  induction offers with
  | nil => exact fun rc => ⟨rfl, rfl⟩
  | cons o os ih =>
    intro rc
    cases hg : o.groupId with
    | none => simp [process_offers, hg]
    | some g =>
      by_cases hseen : hasOffer rc ("offer:" ++ offerId search g)
      · simpa [process_offers, hg, hseen] using ih rc
      · cases hd : buildOfferData o with
        | none => simpa [process_offers, hg, hseen, hd] using ih rc
        | some d =>
          cases rc with
          | none => simpa [process_offers, hg, hasOffer, hd] using ih none
          | some st =>
            simpa [process_offers, hg, hseen, hd] using
              ih (some (setKey st ("offer:" ++ offerId search g) d))

lemma colon_data : (":" : String).data = [(':' : Char)] := rfl

/-- Splitting a colon-free list leaves it whole. -/
lemma splitColon_no_colon (l : List Char) (h : (':' : Char) ∉ l) :
    splitColon l = [l] := by
  induction l with
  | nil => rfl
  | cons c rest ih =>
    have hc : c ≠ ':' := fun hc => h (hc ▸ List.mem_cons_self c rest)
    have hr : (':' : Char) ∉ rest := fun hr => h (List.mem_cons_of_mem c hr)
    simp [splitColon, hc, ih hr]

/-- Splitting `p ++ ":" ++ c` with `p` colon-free peels off `p`. -/
lemma splitColon_append (p c : List Char) (hp : (':' : Char) ∉ p) :
    splitColon (p ++ ':' :: c) = p :: splitColon c := by
  induction p with
  | nil => simp [splitColon]
  | cons x p' ih =>
    have hx : x ≠ ':' := fun hx => hp (hx ▸ List.mem_cons_self x p')
    have hp' : (':' : Char) ∉ p' := fun h => hp (List.mem_cons_of_mem x h)
    simp [splitColon, hx, ih hp']

/-- The first segment of a split is the colon-free longest prefix. -/
lemma splitColon_head (l : List Char) :
    ∃ M, splitColon l = l.takeWhile (fun c => c != ':') :: M := by
  induction l with
  | nil => exact ⟨[], rfl⟩
  | cons c rest ih =>
    obtain ⟨M, hM⟩ := ih
    by_cases hc : c = ':'
    · subst hc
      refine ⟨splitColon rest, ?_⟩
      simp [splitColon, List.takeWhile]
    · have hb : (c != ':') = true := by simp [hc]
      refine ⟨M, ?_⟩
      simp [splitColon, hc, hM, List.takeWhile, hb]

/-- Uniqueness of the decomposition around a colon when the right parts are
colon-free: the last colon is the separator. -/
lemma append_colon_inj (g₁ g₂ : List Char)
    (h₁ : (':' : Char) ∉ g₁) (h₂ : (':' : Char) ∉ g₂) :
    ∀ a b : List Char, a ++ ':' :: g₁ = b ++ ':' :: g₂ → a = b ∧ g₁ = g₂ := by
  intro a
  induction a with
  | nil =>
    intro b h
    cases b with
    | nil => simpa using h
    | cons y b' =>
      rw [List.nil_append, List.cons_append] at h
      injection h with hy hrest
      exact absurd (show (':' : Char) ∈ g₁ by rw [hrest]; simp) h₁
  | cons x a' ih =>
    intro b h
    cases b with
    | nil =>
      rw [List.cons_append, List.nil_append] at h
      injection h with hy hrest
      exact absurd (show (':' : Char) ∈ g₂ by rw [← hrest]; simp) h₂
    | cons y b' =>
      rw [List.cons_append, List.cons_append] at h
      injection h with hy hrest
      obtain ⟨hab, hg⟩ := ih b' hrest
      exact ⟨by rw [hy, hab], hg⟩

/-- Updating an existing key in place leaves the new value retrievable. -/
lemma dictGet_map_update (m : Registry) (k : String) (v : JobSearch)
    (h : m.any (fun p => p.1 == k)) :
    dictGet (m.map (fun p => if p.1 == k then (k, v) else p)) k = some v := by
  induction m with
  | nil => simp at h
  | cons x xs ih =>
    by_cases hx : x.1 == k
    · simp [dictGet, List.find?, hx]
    · simp only [List.any_cons, Bool.or_eq_true] at h
      rcases h with h | h
      · exact absurd h hx
      · simpa [dictGet, List.find?, hx] using ih h

/-- Appending a fresh key makes the new value retrievable. -/
lemma dictGet_append_new (m : Registry) (k : String) (v : JobSearch)
    (h : ¬ m.any (fun p => p.1 == k)) :
    dictGet (m ++ [(k, v)]) k = some v := by
  induction m with
  | nil => simp [dictGet, List.find?]
  | cons x xs ih =>
    simp only [List.any_cons, Bool.or_eq_true, not_or] at h
    obtain ⟨hx, hxs⟩ := h
    simpa [dictGet, List.find?, hx] using ih (by simpa using hxs)

/-- `self.searches[k] = v` followed by lookup of `k` yields `v`. -/
lemma dictGet_dictInsert (m : Registry) (k : String) (v : JobSearch) :
    dictGet (dictInsert m k v) k = some v := by
  by_cases h : m.any (fun p => p.1 == k)
  · rw [dictInsert, if_pos h]; exact dictGet_map_update m k v h
  · rw [dictInsert, if_neg h]; exact dictGet_append_new m k v h

/-- The snapshot stores `offer.get('salaryDisplayText', '')`: a present
salary verbatim, a missing one as the empty string. -/
lemma buildOfferData_salary (offer : RawOffer) (d : OfferData)
    (hd : buildOfferData offer = some d) :
    d.salaryDisplayText = offer.salaryDisplayText.getD "" := by
  simp only [buildOfferData, Option.bind_eq_bind, Option.bind_eq_some,
    Option.some.injEq] at hd
  obtain ⟨cn, hcn, jt, hjt, lp, hlp, te, hte, sub, hsub, fi, hfi, dw, hdw,
    uri, huri, pl, hpl, hd⟩ := hd
  rw [← hd]

/-- C4 counterexample: the claim's formula fails when the city is present but
empty. `get_search_id` tests Python truthiness (`if self.city:`), so
`city = ""` is treated like an absent city and the identifier is `"a"`,
not `lowercase(position) ++ ":" ++ lowercase(city) = "a:"`. -/
theorem c4_city_empty_counterexample :
    JobSearch.get_search_id ⟨"a", some ""⟩ ≠ lowerStr "a" ++ ":" ++ lowerStr "" := by
  decide

/-- C4 (amended): the identifier equals `lowercase(position)` when the city
is absent OR empty, and `lowercase(position) ++ ":" ++ lowercase(city)` when
the city is present and non-empty; case-insensitivity
`identifier(p, c) = identifier(p.upper(), c.upper())` holds for all inputs. -/
theorem c4_search_id_formula_case_insensitive (p : String) (c : Option String) :
    JobSearch.get_search_id ⟨p, c⟩ =
      (match c with
       | none => lowerStr p
       | some city =>
         if city = "" then lowerStr p else lowerStr p ++ ":" ++ lowerStr city) ∧
    JobSearch.get_search_id ⟨upperStr p, c.map upperStr⟩ =
      JobSearch.get_search_id ⟨p, c⟩ := by
  cases c with
  | none =>
    exact ⟨rfl, by simp [JobSearch.get_search_id, pyTruthy, lowerStr_upperStr]⟩
  | some city =>
    by_cases hc : city = ""
    · subst hc
      constructor
      · simp [JobSearch.get_search_id, pyTruthy]
      · have he : upperStr "" = "" := rfl
        simp [JobSearch.get_search_id, pyTruthy, he, lowerStr_upperStr]
    · have hc' : upperStr city ≠ "" := fun h => hc ((upperStr_eq_empty_iff city).mp h)
      constructor
      · simp only [JobSearch.get_search_id, pyTruthy, Option.getD_some, hc,
          if_neg hc, bne_iff_ne, ne_eq, not_false_eq_true, if_true]
        rw [lowerStr_append, lowerStr_append, lowerStr_colon]
        simp [hc]
      · simp only [JobSearch.get_search_id, pyTruthy, Option.map_some',
          Option.getD_some]
        rw [if_pos (by simp [hc']), if_pos (by simp [hc])]
        rw [lowerStr_append, lowerStr_append, lowerStr_append, lowerStr_append,
          lowerStr_upperStr, lowerStr_upperStr, lowerStr_colon]

/-- C5 counterexample: offer keys are NOT globally unique. The searches
`("a", city "b")` and `("a", no city)` with group ids `"c"` and `"b:c"`
produce the same key `"a:b:c"` although both the search identifiers and the
group ids differ. -/
theorem c5_offer_key_collision_counterexample :
    offerId ⟨"a", some "b"⟩ "c" = offerId ⟨"a", none⟩ "b:c" ∧
    ¬ (JobSearch.get_search_id ⟨"a", some "b"⟩ = JobSearch.get_search_id ⟨"a", none⟩ ∧
       ("c" : String) = "b:c") := by
  decide

/-- C5 (amended): when the group ids contain no `':'`, equal offer keys force
equal search identifiers and equal group ids. -/
theorem c5_offer_key_unique_of_colon_free (s₁ s₂ : JobSearch) (g₁ g₂ : String)
    (h₁ : (':' : Char) ∉ g₁.data) (h₂ : (':' : Char) ∉ g₂.data)
    (h : offerId s₁ g₁ = offerId s₂ g₂) :
    s₁.get_search_id = s₂.get_search_id ∧ g₁ = g₂ := by
  have hd : s₁.get_search_id.data ++ ':' :: g₁.data =
      s₂.get_search_id.data ++ ':' :: g₂.data := by
    have h' := congrArg String.data h
    simpa [offerId, String.data_append, colon_data, List.append_assoc,
      List.singleton_append] using h'
  obtain ⟨ha, hg⟩ := append_colon_inj g₁.data g₂.data h₁ h₂ _ _ hd
  exact ⟨String.ext ha, String.ext hg⟩

/-- C5 witness: the amended uniqueness applied at the colliding key `"x:1"`
arising from `("x", no city)` / `("X", no city)` with group id `"1"`. -/
theorem c5_unique_witness :
    JobSearch.get_search_id ⟨"x", none⟩ = JobSearch.get_search_id ⟨"X", none⟩ ∧
    ("1" : String) = "1" :=
  c5_offer_key_unique_of_colon_free ⟨"x", none⟩ ⟨"X", none⟩ "1" "1"
    (by decide) (by decide) (by decide)

/-- C6 counterexample: for the persisted identifier `"a:b:c"`, setup's
`position, *city = search_str.split(":")` with `city[0]` yields the city
`"b"` (the segment between the first and second colon), NOT the full
remainder `"b:c"` claimed. -/
theorem c6_second_colon_counterexample :
    setupEntry "a:b:c" = ("a", some "b") ∧ (setupEntry "a:b:c").2 ≠ some "b:c" := by
  decide

/-- C6 (amended): the position is everything left of the first `':'`; when a
`':'` is present the city is the remainder truncated at the NEXT `':'` (the
first element of `split(":")`'s tail), not the full remainder. -/
theorem c6_setup_reconstruction (p c : String) (hp : (':' : Char) ∉ p.data) :
    setupEntry p = (p, none) ∧
    setupEntry (p ++ ":" ++ c) =
      (p, some ⟨c.data.takeWhile (fun x => x != ':')⟩) := by
  constructor
  · simp [setupEntry, pySplitColon, splitColon_no_colon p.data hp]
  · have hdata : (p ++ ":" ++ c).data = p.data ++ ':' :: c.data := by
      simp [String.data_append, colon_data]
    obtain ⟨M, hM⟩ := splitColon_head c.data
    simp [setupEntry, pySplitColon, hdata,
      splitColon_append p.data c.data hp, hM]

/-- C6 witness: the amended reconstruction at the identifier
`"devops engineer:wroclaw"`. -/
theorem c6_setup_witness :
    setupEntry "devops engineer" = ("devops engineer", none) ∧
    setupEntry ("devops engineer" ++ ":" ++ "wroclaw") =
      ("devops engineer",
       some ⟨("wroclaw" : String).data.takeWhile (fun x => x != ':')⟩) :=
  c6_setup_reconstruction "devops engineer" "wroclaw" (by decide)

/-- C7 counterexample: there is no `ValidationError` anywhere. A position
that is empty after trimming whitespace (here `"   "`) is happily accepted:
`add_search` inserts it into the in-memory registry and persists its
identifier into the store's set. -/
theorem c7_no_validation_counterexample :
    (add_search ⟨[], some []⟩ "   " none).searches = [("   ", ⟨"   ", none⟩)] ∧
    (add_search ⟨[], some []⟩ "   " none).redisSet = some ["   "] := by
  decide

/-- C7 (amended): constructing a `JobSearch` never fails — the dataclass has
no validation and `add_search` rejects nothing: every (position, city) pair,
including a position empty after trimming, is inserted into the registry
under its derived identifier. -/
theorem c7_add_search_never_fails (m : MonitorReg) (p : String)
    (c : Option String) :
    dictGet (add_search m p c).searches (JobSearch.get_search_id ⟨p, c⟩) =
      some ⟨p, c⟩ := by
  simpa [add_search] using
    dictGet_dictInsert m.searches (JobSearch.get_search_id ⟨p, c⟩) ⟨p, c⟩

/-- A pattern sitting syntactically between two parts is found by the
substring test. -/
lemma strContainsB_sandwich (a pat b : String) :
    strContainsB (a ++ pat ++ b) pat = true := by
  simp only [strContainsB, List.any_eq_true]
  refine ⟨pat.data ++ b.data, ?_, ?_⟩
  · rw [List.mem_tails]
    exact ⟨a.data, by simp [String.data_append]⟩
  · rw [List.isPrefixOf_iff_prefix]
    exact ⟨b.data, rfl⟩

/-- C1: given a store with no record for the offer's key, processing the
one-offer list performs exactly one `recordOffer` write, under key
`offer:<offerKey>`, followed by exactly one notification; once the key is
recorded (as it is after that write), reprocessing the same offer with the
store available performs zero writes and zero notifications. -/
theorem c1_first_sighting_once (deliver : String → Bool) (st st' : Store)
    (search : JobSearch) (offer : RawOffer) (g : String) (d : OfferData)
    (hg : offer.groupId = some g) (hd : buildOfferData offer = some d)
    (hfresh : hasKey st ("offer:" ++ offerId search g) = false)
    (hseen : hasKey st' ("offer:" ++ offerId search g) = true) :
    process_offers deliver (some st) search [offer] =
      ⟨some (setKey st ("offer:" ++ offerId search g) d),
       [Event.write ("offer:" ++ offerId search g) d,
        Event.notify (alertMessage (mergedJob offer d) search)
          (deliver (alertMessage (mergedJob offer d) search))],
       none⟩ ∧
    hasKey (setKey st ("offer:" ++ offerId search g) d)
      ("offer:" ++ offerId search g) = true ∧
    process_offers deliver (some st') search [offer] = ⟨some st', [], none⟩ := by
  refine ⟨?_, hasKey_setKey st _ d, ?_⟩
  · simp [process_offers, hg, hasOffer, hfresh, hd]
  · simp [process_offers, hg, hasOffer, hseen]

/-- C1 witness: the spec's scenario — empty store, one offer with
`groupId="42"` — then a second cycle on the store left behind. -/
theorem c1_witness :
    process_offers (fun _ => true) (some []) sampleSearch [sampleOffer] =
      ⟨some (setKey [] ("offer:" ++ offerId sampleSearch "42") sampleData),
       [Event.write ("offer:" ++ offerId sampleSearch "42") sampleData,
        Event.notify (alertMessage (mergedJob sampleOffer sampleData) sampleSearch)
          ((fun _ => true) (alertMessage (mergedJob sampleOffer sampleData) sampleSearch))],
       none⟩ ∧
    hasKey (setKey [] ("offer:" ++ offerId sampleSearch "42") sampleData)
      ("offer:" ++ offerId sampleSearch "42") = true ∧
    process_offers (fun _ => true)
        (some (setKey [] ("offer:" ++ offerId sampleSearch "42") sampleData))
        sampleSearch [sampleOffer] =
      ⟨some (setKey [] ("offer:" ++ offerId sampleSearch "42") sampleData),
       [], none⟩ :=
  c1_first_sighting_once (fun _ => true) []
    (setKey [] ("offer:" ++ offerId sampleSearch "42") sampleData)
    sampleSearch sampleOffer "42" sampleData rfl (by decide) (by decide) (by decide)

/-- C2: for a new offer the write event precedes the notify event in the
trace; on a failed delivery the key stays recorded and the rest of the list
is processed from the written store; the store evolution never depends on
delivery outcomes (no rollback path exists). -/
theorem c2_write_before_notify (deliver : String → Bool) (st : Store)
    (search : JobSearch) (offer : RawOffer) (rest : List RawOffer)
    (g : String) (d : OfferData)
    (hg : offer.groupId = some g) (hd : buildOfferData offer = some d)
    (hfresh : hasKey st ("offer:" ++ offerId search g) = false)
    (hfail : deliver (alertMessage (mergedJob offer d) search) = false) :
    process_offers deliver (some st) search (offer :: rest) =
      ⟨(process_offers deliver
          (some (setKey st ("offer:" ++ offerId search g) d)) search rest).store,
       Event.write ("offer:" ++ offerId search g) d ::
       Event.notify (alertMessage (mergedJob offer d) search) false ::
       (process_offers deliver
          (some (setKey st ("offer:" ++ offerId search g) d)) search rest).trace,
       (process_offers deliver
          (some (setKey st ("offer:" ++ offerId search g) d)) search rest).err⟩ ∧
    hasKey (setKey st ("offer:" ++ offerId search g) d)
      ("offer:" ++ offerId search g) = true ∧
    (process_offers deliver (some st) search (offer :: rest)).store =
      (process_offers (fun _ => true) (some st) search (offer :: rest)).store := by
  refine ⟨?_, hasKey_setKey st _ d, ?_⟩
  · simp [process_offers, hg, hasOffer, hfresh, hd, hfail]
  · exact (process_offers_deliver_indep deliver (fun _ => true) search
      (offer :: rest) (some st)).1

/-- C2 witness: a delivery channel that always fails, on the concrete
scenario; the key is recorded all the same. -/
theorem c2_witness :
    process_offers (fun _ => false) (some []) sampleSearch [sampleOffer] =
      ⟨(process_offers (fun _ => false)
          (some (setKey [] ("offer:" ++ offerId sampleSearch "42") sampleData))
          sampleSearch []).store,
       Event.write ("offer:" ++ offerId sampleSearch "42") sampleData ::
       Event.notify (alertMessage (mergedJob sampleOffer sampleData) sampleSearch)
         false ::
       (process_offers (fun _ => false)
          (some (setKey [] ("offer:" ++ offerId sampleSearch "42") sampleData))
          sampleSearch []).trace,
       (process_offers (fun _ => false)
          (some (setKey [] ("offer:" ++ offerId sampleSearch "42") sampleData))
          sampleSearch []).err⟩ ∧
    hasKey (setKey [] ("offer:" ++ offerId sampleSearch "42") sampleData)
      ("offer:" ++ offerId sampleSearch "42") = true ∧
    (process_offers (fun _ => false) (some []) sampleSearch [sampleOffer]).store =
      (process_offers (fun _ => true) (some []) sampleSearch [sampleOffer]).store :=
  c2_write_before_notify (fun _ => false) [] sampleSearch sampleOffer [] "42"
    sampleData rfl (by decide) (by decide) rfl

/-- C3: with the store unavailable (`none`), `hasOffer` is false for every
key, processing performs no write at all and leaves the store absent, and a
complete offer is notified on this cycle and again on the next one. -/
theorem c3_degraded_mode (deliver : String → Bool) (search : JobSearch)
    (offer : RawOffer) (offers : List RawOffer) (g : String) (d : OfferData)
    (key : String)
    (hg : offer.groupId = some g) (hd : buildOfferData offer = some d) :
    hasOffer none key = false ∧
    (process_offers deliver none search offers).store = none ∧
    (process_offers deliver none search offers).trace.all
      (fun e => !(isWrite e)) = true ∧
    process_offers deliver none search [offer] =
      ⟨none,
       [Event.notify (alertMessage (mergedJob offer d) search)
          (deliver (alertMessage (mergedJob offer d) search))], none⟩ ∧
    process_offers deliver
        (process_offers deliver none search [offer]).store search [offer] =
      ⟨none,
       [Event.notify (alertMessage (mergedJob offer d) search)
          (deliver (alertMessage (mergedJob offer d) search))], none⟩ := by
  obtain ⟨h1, h2⟩ := process_offers_none deliver search offers
  have hone : process_offers deliver none search [offer] =
      ⟨none,
       [Event.notify (alertMessage (mergedJob offer d) search)
          (deliver (alertMessage (mergedJob offer d) search))], none⟩ := by
    simp [process_offers, hg, hasOffer, hd]
  refine ⟨rfl, h1, h2, hone, ?_⟩
  rw [hone]
  exact hone

/-- C3 witness: the degraded mode at the concrete scenario, over a two-copy
offer list. -/
theorem c3_witness :
    hasOffer none ("offer:" ++ offerId sampleSearch "42") = false ∧
    (process_offers (fun _ => true) none sampleSearch
      [sampleOffer, sampleOffer]).store = none ∧
    (process_offers (fun _ => true) none sampleSearch
      [sampleOffer, sampleOffer]).trace.all (fun e => !(isWrite e)) = true ∧
    process_offers (fun _ => true) none sampleSearch [sampleOffer] =
      ⟨none,
       [Event.notify (alertMessage (mergedJob sampleOffer sampleData) sampleSearch)
          ((fun _ => true)
            (alertMessage (mergedJob sampleOffer sampleData) sampleSearch))],
       none⟩ ∧
    process_offers (fun _ => true)
        (process_offers (fun _ => true) none sampleSearch [sampleOffer]).store
        sampleSearch [sampleOffer] =
      ⟨none,
       [Event.notify (alertMessage (mergedJob sampleOffer sampleData) sampleSearch)
          ((fun _ => true)
            (alertMessage (mergedJob sampleOffer sampleData) sampleSearch))],
       none⟩ :=
  c3_degraded_mode (fun _ => true) sampleSearch sampleOffer
    [sampleOffer, sampleOffer] "42" sampleData
    ("offer:" ++ offerId sampleSearch "42") rfl (by decide)

/-- C9: a failed fetch is treated as the empty offer list for that search
only: the cycle over `a :: rest` equals the cycle over `rest` — no write and
no notification for `a`, and every later search is processed unchanged. -/
theorem c9_fetch_failure_isolated (deliver : String → Bool)
    (fetch : JobSearch → Except String (List RawOffer)) (rc : Option Store)
    (a : JobSearch) (rest : List JobSearch) (e : String)
    (hfail : fetch a = .error e) :
    getJobOffers (fetch a) = [] ∧
    runCycle deliver fetch rc (a :: rest) = runCycle deliver fetch rc rest := by
  constructor
  · rw [hfail]; rfl
  · simp [runCycle, getJobOffers, hfail]

/-- C9 witness: a fetch that always fails, ahead of a second search that is
still reached. -/
theorem c9_witness :
    getJobOffers ((fun _ : JobSearch => (Except.error "boom" :
      Except String (List RawOffer))) sampleSearch) = [] ∧
    runCycle (fun _ => true) (fun _ => Except.error "boom") (some [])
        [sampleSearch, ⟨"Cloud Engineer", none⟩] =
      runCycle (fun _ => true) (fun _ => Except.error "boom") (some [])
        [⟨"Cloud Engineer", none⟩] :=
  c9_fetch_failure_isolated (fun _ => true) (fun _ => Except.error "boom")
    (some []) sampleSearch [⟨"Cloud Engineer", none⟩] "boom" rfl

/-- C10: when the snapshot build raises for one offer (a required sibling
field of `groupId`, or the nested `offers[0]` entry, is missing), the
per-offer `except` skips exactly that offer — no write, no notification —
and the rest of the list is processed unchanged. -/
theorem c10_snapshot_failure_isolated (deliver : String → Bool)
    (rc : Option Store) (search : JobSearch) (offer : RawOffer)
    (rest : List RawOffer) (g : String)
    (hg : offer.groupId = some g) (hd : buildOfferData offer = none) :
    process_offers deliver rc search (offer :: rest) =
      process_offers deliver rc search rest := by
  by_cases hseen : hasOffer rc ("offer:" ++ offerId search g)
  · simp [process_offers, hg, hseen, hd]
  · simp [process_offers, hg, hseen, hd]

/-- C10 witness: an offer with `companyName` missing is skipped and the
complete offer after it is still processed. -/
theorem c10_witness :
    process_offers (fun _ => true) (some []) sampleSearch
      [brokenOffer, sampleOffer] =
    process_offers (fun _ => true) (some []) sampleSearch [sampleOffer] :=
  c10_snapshot_failure_isolated (fun _ => true) (some []) sampleSearch
    brokenOffer [sampleOffer] "42" rfl (by decide)

/-- C8 counterexample: for a concrete new offer whose source record has no
`salaryDisplayText`, the notification message does NOT contain the literal
"Not specified": the snapshot stored `""` under that key, so the merged dict
always has the key and `job.get('salaryDisplayText', 'Not specified')`
returns `""` — the salary line is empty. -/
theorem c8_salary_counterexample :
    sampleOffer.salaryDisplayText = none ∧
    buildOfferData sampleOffer = some sampleData ∧
    strContainsB (alertMessage (mergedJob sampleOffer sampleData) sampleSearch)
      "Not specified" = false ∧
    strContainsB (alertMessage (mergedJob sampleOffer sampleData) sampleSearch)
      "💰 Salary: \n" = true := by
  exact ⟨rfl, by decide, by decide, by decide⟩

/-- C8 (amended): through `process_offers`, the rendered salary text equals
the source value when the field is present and the EMPTY string when it is
absent — the formatter's "Not specified" default is unreachable, because the
snapshot always stores `''` for a missing salary; the message contains the
salary line with exactly that text. -/
theorem c8_salary_rendered (offer : RawOffer) (d : OfferData)
    (search : JobSearch) (hd : buildOfferData offer = some d) :
    salaryShown (mergedJob offer d) = offer.salaryDisplayText.getD "" ∧
    strContainsB (alertMessage (mergedJob offer d) search)
      ("💰 Salary: " ++ offer.salaryDisplayText.getD "" ++ "\n") = true := by
  have h := buildOfferData_salary offer d hd
  have hs : salaryShown (mergedJob offer d) = offer.salaryDisplayText.getD "" := by
    simp [salaryShown, mergedJob, h]
  refine ⟨hs, ?_⟩
  rw [alertMessage, hs]
  exact strContainsB_sandwich _ _ _

/-- C8 witness: the amended statement at the concrete salary-less offer. -/
theorem c8_witness :
    salaryShown (mergedJob sampleOffer sampleData) =
      sampleOffer.salaryDisplayText.getD "" ∧
    strContainsB (alertMessage (mergedJob sampleOffer sampleData) sampleSearch)
      ("💰 Salary: " ++ sampleOffer.salaryDisplayText.getD "" ++ "\n") = true :=
  c8_salary_rendered sampleOffer sampleData sampleSearch (by decide)

end PracujScraper
